import Mathlib

/-!
Shallow embedding of the momentum scroll-physics and section-snapping engine
(`EnhancedMomentumScroller`, `SmoothSectionScroller`) and of the scene-window
builder (`PathRenderer.createDottedPath`) of the repository, together with
theorems settling the specification claims about them.

Real-number quantities of the source (positions, velocities, magnetism) are
modelled as rationals `ℚ`; JavaScript decimal literals translate exactly to
rational literals. Per-frame elapsed time is modelled in units of the nominal
16 ms frame, so the frame-rate compensation exponent `dt/16` becomes a natural
number `k` and `Math.pow(friction, dt/16)` becomes `friction ^ k`.
-/

/-- Section types of the `ScrollSection` interface. -/
inductive SectionType where
  | agent
  | milestone
  | shape
  | decorative
  | micro
deriving DecidableEq

/-- Interface `ScrollSection` of `EnhancedMomentumScroller`:
`{ position, type, magnetism, snapDuration }`. -/
structure ScrollSection where
  position : ℕ
  type : SectionType
  magnetism : ℚ
  snapDuration : ℚ
deriving DecidableEq

/-- One iteration of the loop body of
`EnhancedMomentumScroller.generateSections`: the section pushed for a given
integer position (`none` when the position matches no spacing divisor). -/
def sectionAt (pos : ℕ) : Option ScrollSection :=
  if pos = 0 then some ⟨0, .agent, 100, 1.8⟩
  else if pos % 60 = 0 then some ⟨pos, .agent, 100, 2.0⟩
  else if pos % 40 = 0 then some ⟨pos, .milestone, 90, 1.6⟩
  else if pos % 15 = 0 then some ⟨pos, .shape, 75, 1.2⟩
  else if pos % 8 = 0 then some ⟨pos, .decorative, 60, 1.0⟩
  else if pos % 3 = 0 then some ⟨pos, .micro, 35, 0.6⟩
  else none

/-- The list accumulated by the `for (let pos = 0; pos <= 3000; pos++)` loop
of `EnhancedMomentumScroller.generateSections`, before the final sort. -/
def sectionsRaw : List ScrollSection :=
  (List.range 3001).filterMap sectionAt

/-- Method `EnhancedMomentumScroller.generateSections`: the loop followed by
`this.sections.sort((a, b) => a.position - b.position)`. -/
def generateSections : List ScrollSection :=
  sectionsRaw.mergeSort (fun a b => a.position ≤ b.position)

theorem sectionAt_position {p : ℕ} {s : ScrollSection} (h : sectionAt p = some s) :
    s.position = p := by
  unfold sectionAt at h
  repeat' split at h
  all_goals first
    | exact (Option.noConfusion h)
    | (cases h; simp_all)

theorem sectionsRaw_pairwise :
    sectionsRaw.Pairwise (fun a b => a.position < b.position) := by
  unfold sectionsRaw
  rw [List.pairwise_filterMap]
  have h := List.pairwise_lt_range 3001
  refine h.imp ?_
  intro a b hab x hx y hy
  rw [Option.mem_def] at hx hy
  rw [sectionAt_position hx, sectionAt_position hy]
  exact hab

/-- The loop already emits sections in ascending position order, so the final
sort is the identity. -/
theorem generateSections_eq : generateSections = sectionsRaw := by
  apply List.mergeSort_of_sorted
  refine sectionsRaw_pairwise.imp ?_
  intro a b h
  simp only [decide_eq_true_eq]
  exact Nat.le_of_lt h

/-! ## Constants of `EnhancedMomentumScroller` -/

/-- Field `this.friction = 0.015` (the one used by `updateMomentum`). -/
def friction : ℚ := 0.015

/-- Field `this.maxVelocity = 25`. -/
def maxVelocity : ℚ := 25

/-- Field `this.minVelocity = 0.02`. -/
def minVelocity : ℚ := 0.02

/-- Field `this.config.snapRadius = 30`. -/
def snapRadius : ℚ := 30

/-- Field `this.config.accelerationMultiplier = 1.2`. -/
def accelerationMultiplier : ℚ := 1.2

/-- Function `Math.sign`. -/
def mathSign (x : ℚ) : ℚ := if 0 < x then 1 else if x < 0 then -1 else 0

/-! ## Scroller state -/

/-- The mutable fields of `EnhancedMomentumScroller` relevant to the claims,
plus two event flags recording the collaborator calls of the most recent
`updateScene` (`sceneRebuilt` for `createDottedPath`, `bgFired` for
`updateBackgroundForAgent`). -/
structure ScrollerState where
  position : ℚ
  velocity : ℚ
  inputAccumulator : ℚ
  isScrolling : Bool
  isSnapping : Bool
  currentTween : Option ScrollSection
  lastTargetSection : Option ScrollSection
  currentAgent : ℤ
  lastPlayedAgent : Option ℤ
  bgFired : Bool
  sceneRebuilt : Bool
deriving DecidableEq

/-- State at engine construction: position 0, at rest, not snapping. -/
def initialState : ScrollerState :=
  { position := 0, velocity := 0, inputAccumulator := 0, isScrolling := false,
    isSnapping := false, currentTween := none, lastTargetSection := none,
    currentAgent := 0, lastPlayedAgent := none, bgFired := false,
    sceneRebuilt := false }

/-! ## Per-frame operations -/

/-- Method `EnhancedMomentumScroller.updateScene`: rebuild the dotted path, then
derive `currentAgent = floor(position / 60)` and call
`updateBackgroundForAgent` only when it differs from the last-known index
(recorded in `bgFired`); finally track `lastPlayedAgentIndex` for the
transition sound. -/
def updateScene (s : ScrollerState) : ScrollerState :=
  let currentAgent := ⌊s.position / 60⌋
  let s1 := { s with sceneRebuilt := true }
  let s2 :=
    if currentAgent ≠ s1.currentAgent then
      { s1 with currentAgent := currentAgent, bgFired := true }
    else
      { s1 with bgFired := false }
  if s2.lastPlayedAgent ≠ some currentAgent then
    { s2 with lastPlayedAgent := some currentAgent }
  else s2

/-- Method `EnhancedMomentumScroller.updatePosition`: when `|velocity| > 0.01`,
`position = max(0, position + velocity)`, with `updateScene` on change. -/
def updatePosition (s : ScrollerState) : ScrollerState :=
  if 0.01 < |s.velocity| then
    let newPosition := max 0 (s.position + s.velocity)
    if newPosition ≠ s.position then updateScene { s with position := newPosition }
    else s
  else s

/-- Method `EnhancedMomentumScroller.handleWheel` (state part): early return when a
modifier key is held; otherwise accumulate input, mark scrolling, and add a
clamped immediate acceleration to the velocity. -/
def handleWheel (s : ScrollerState) (deltaY : ℚ) (ctrlOrMeta : Bool) : ScrollerState :=
  if ctrlOrMeta then s
  else
    let intensity := min |deltaY| 150
    let direction := mathSign deltaY
    let acceleration := direction * intensity * 0.015 * accelerationMultiplier
    let v1 := s.velocity + acceleration
    { s with
      inputAccumulator := s.inputAccumulator + direction * intensity * 0.01,
      isScrolling := true,
      velocity := max (-maxVelocity) (min maxVelocity v1) }

/-- Method `EnhancedMomentumScroller.applyMagneticForces`: no-op when `|velocity| > 5`;
otherwise, for each section whose distance is within `snapRadius`, add
`sign(distance) * (magnetism/100) * (1 - |distance|/snapRadius) * 0.02` to the
velocity, provided `0.5 < |distance| ≤ snapRadius`. Returns the new velocity. -/
def applyMagneticForces (secs : List ScrollSection) (currentPos velocity : ℚ) : ℚ :=
  if 5 < |velocity| then velocity
  else
    let nearSections := secs.filter fun sec => |(sec.position : ℚ) - currentPos| ≤ snapRadius
    nearSections.foldl (fun vel sec =>
      let distance := (sec.position : ℚ) - currentPos
      let absDistance := |distance|
      if 0.5 < absDistance ∧ absDistance ≤ snapRadius then
        vel + mathSign distance * ((sec.magnetism / 100) * (1 - absDistance / snapRadius)) * 0.02
      else vel) velocity

/-- Velocity clamping at the end of `updateMomentum`: snap to exactly 0 below
`minVelocity`, otherwise clamp into `[-maxVelocity, maxVelocity]`. -/
def clampVelocity (v : ℚ) : ℚ :=
  if |v| < minVelocity then 0
  else max (-maxVelocity) (min maxVelocity v)

/-- Method `EnhancedMomentumScroller.updateMomentum` with elapsed time `16 * k` ms,
so that `Math.pow(friction, deltaTime / 16)` is `friction ^ k`: early return
while snapping; otherwise friction, input-accumulator folding, magnetic
forces, and the velocity clamp. -/
def updateMomentum (secs : List ScrollSection) (s : ScrollerState) (k : ℕ) : ScrollerState :=
  if s.isSnapping then s
  else
    let v1 := s.velocity * friction ^ k
    let folded := 0.001 < |s.inputAccumulator|
    let v2 := if folded then v1 + s.inputAccumulator * 0.5 else v1
    let acc2 := if folded then s.inputAccumulator * 0.85 else s.inputAccumulator
    let v3 := applyMagneticForces secs s.position v2
    { s with velocity := clampVelocity v3, inputAccumulator := acc2 }

/-- One free-mode integration step of the physics loop preceded by a wheel
event: `handleWheel`, then `updateMomentum`, then `updatePosition`. -/
def freeStep (secs : List ScrollSection) (s : ScrollerState) (input : ℚ × ℕ) : ScrollerState :=
  updatePosition (updateMomentum secs (handleWheel s input.1 false) input.2)

/-! ## Snap controller -/

/-- Method `EnhancedMomentumScroller.killAllTweens`: kills the current tween, but
only when the gsap global is present. -/
def killAllTweens (gsapAvailable : Bool) (s : ScrollerState) : ScrollerState :=
  if gsapAvailable then { s with currentTween := none } else s

/-- Method `EnhancedMomentumScroller.snapToSection`: early return while already
snapping; otherwise enter the snapping state with velocity and accumulator
zeroed, kill existing tweens, then either degrade to an instant position
assignment (gsap absent) or start the eased tween (gsap present). -/
def snapToSection (gsapAvailable : Bool) (s : ScrollerState)
    (targetSection : ScrollSection) : ScrollerState :=
  if s.isSnapping then s
  else
    let s1 := { s with isSnapping := true, isScrolling := false,
                       velocity := 0, inputAccumulator := 0 }
    let s2 := killAllTweens gsapAvailable s1
    if gsapAvailable = false then
      let s3 := updateScene { s2 with position := (targetSection.position : ℚ) }
      { s3 with isSnapping := false }
    else
      { s2 with currentTween := some targetSection }

/-- Modelled from the spec: the gsap tween (external animation backend, not in
the repository) drives `positionRef.current` to exactly the tween target at
completion, with `onUpdate` rebuilding the scene and `onComplete` clearing
`isSnapping` and recording the target section. -/
def completeTween (s : ScrollerState) : ScrollerState :=
  match s.currentTween with
  | none => s
  | some t =>
      let s1 := updateScene { s with position := (t.position : ℚ) }
      { s1 with isSnapping := false, lastTargetSection := some t, currentTween := none }

/-! ## Snap target selection -/

/-- The two filters used by `findTargetSection`. -/
inductive SnapType where
  | agent
  | any
deriving DecidableEq

/-- Method `EnhancedMomentumScroller.findTargetSection`: filter to agents (or to
sections with magnetism at least 55, skipping micro sections), then take the
first section beyond `currentPos + 1` in the requested direction. -/
def findTargetSection (secs : List ScrollSection) (currentPos : ℚ) (direction : ℤ)
    (ty : SnapType) : Option ScrollSection :=
  let candidates :=
    match ty with
    | .agent => secs.filter fun sec : ScrollSection => decide (sec.type = SectionType.agent)
    | .any => secs.filter fun sec : ScrollSection => decide (55 ≤ sec.magnetism)
  if 0 < direction then
    candidates.find? fun sec => decide (currentPos + 1 < (sec.position : ℚ))
  else
    candidates.reverse.find? fun sec => decide ((sec.position : ℚ) < currentPos - 1)

/-- The candidate score of `findBestSnapTarget`: magnetism, current proximity
and predicted proximity, weighted 0.4 / 0.4 / 0.2. -/
def scoreSection (currentPos predictedPos : ℚ) (sec : ScrollSection) : ℚ :=
  let distance := |(sec.position : ℚ) - currentPos|
  let predictedDistance := |(sec.position : ℚ) - predictedPos|
  (sec.magnetism / 100) * 0.4 + (1 - distance / snapRadius) * 0.4 +
    (1 - predictedDistance / (snapRadius * 1.5)) * 0.2

/-- Method `EnhancedMomentumScroller.findBestSnapTarget`: look ahead in the velocity
direction, keep the sections within `snapRadius * 1.5` of the predicted
position, and return a candidate of maximal score (the source sorts by
descending score and takes the head). -/
def findBestSnapTarget (secs : List ScrollSection) (s : ScrollerState) : Option ScrollSection :=
  let currentPos := s.position
  let searchAhead := mathSign s.velocity * min (|s.velocity| * 2) 20
  let predictedPos := currentPos + searchAhead
  let candidates := secs.filter fun sec => |(sec.position : ℚ) - predictedPos| ≤ snapRadius * 1.5
  match candidates with
  | [] => none
  | c :: cs =>
      some (cs.foldl (fun best x =>
        if scoreSection currentPos predictedPos best < scoreSection currentPos predictedPos x
        then x else best) c)

/-- Method `EnhancedMomentumScroller.checkForAutoSnap` as the snap decision it makes:
`some target` exactly when the auto-snap would call `snapToSection target`. -/
def checkForAutoSnap (secs : List ScrollSection) (s : ScrollerState) : Option ScrollSection :=
  if s.isSnapping || s.isScrolling then none
  else
    let currentVel := |s.velocity|
    if 0.1 < currentVel ∧ currentVel < 2 then
      match findBestSnapTarget secs s with
      | some t =>
          if |(t.position : ℚ) - s.position| ≤ snapRadius ∧ 55 ≤ t.magnetism then some t
          else none
      | none => none
    else none

/-! ## `SmoothSectionScroller` (the second scroller implementation) -/

/-- Method `SmoothSectionScroller.applyImmediateScroll` (non-gsap branch, state
part): when the accumulator is large enough, move by `accumulator * 0.3` with
the result floor-clamped at 0, and damp the accumulator. Returns the new
`(position, scrollAccumulator)`. -/
def applyImmediateScroll (position scrollAccumulator : ℚ) : ℚ × ℚ :=
  if 0.1 < |scrollAccumulator| then
    let movement := scrollAccumulator * 0.3
    let newPosition := max 0 (position + movement)
    (newPosition, scrollAccumulator * 0.7)
  else (position, scrollAccumulator)

/-! ## Scene window builder (`PathRenderer.createDottedPath`) -/

/-- The decorated-object families emitted by `PathRenderer.createDottedPath`
at modulus-based intervals of the global row index. -/
inductive DecoKind where
  | milestoneText
  | agentBox
  | variousShape
  | breakableCubes
  | decorativeShape
  | splineObject
  | sideObjects
deriving DecidableEq

/-- Field `PathRenderer.scrollThreshold = 0.1`. -/
def scrollThreshold : ℚ := 0.1

/-- Method `PathRenderer.hasScrollStarted`: `position > scrollThreshold`. -/
def hasScrollStarted (position : ℚ) : Bool := scrollThreshold < position

/-- Constant `visibleRange = 30` of `PathRenderer.createDottedPath`. -/
def visibleRange : ℕ := 30

/-- The decorated objects emitted for one row of the
`createDottedPath` loop, in source order, each guarded by
`globalRowIndex > 0`, its modulus condition, and `hasScrollStarted()`. -/
def rowDecorations (started : Bool) (g : ℤ) : List DecoKind :=
  (if 0 < g ∧ g % 40 = 0 ∧ started then [DecoKind.milestoneText] else []) ++
  (if 0 < g ∧ g % 60 = 0 ∧ started then [DecoKind.agentBox] else []) ++
  (if 0 < g ∧ g % 30 = 0 ∧ g % 120 ≠ 0 ∧ started then [DecoKind.variousShape] else []) ++
  (if 0 < g ∧ g % 100 = 0 ∧ started then [DecoKind.breakableCubes] else []) ++
  (if 0 < g ∧ g % 16 = 0 ∧ g % 30 ≠ 0 ∧ started then [DecoKind.decorativeShape] else []) ++
  (if 0 < g ∧ g % 90 = 0 ∧ started then [DecoKind.splineObject] else []) ++
  (if 0 < g ∧ g % 40 = 0 ∧ started then [DecoKind.sideObjects] else [])

/-- Method `PathRenderer.createDottedPath` restricted to its decorated-object
emissions: rows are `floor(position) + i` for `i ∈ [-visibleRange,
visibleRange)`, negative rows skipped, and each row contributes
`rowDecorations`. -/
def createDottedPath (position : ℚ) : List (ℤ × DecoKind) :=
  (((List.range (2 * visibleRange)).filterMap fun j =>
    let i : ℤ := (j : ℤ) - (visibleRange : ℤ)
    let globalRowIndex := ⌊position⌋ + i
    if globalRowIndex < 0 then none else some globalRowIndex).map fun g =>
      (rowDecorations (hasScrollStarted position) g).map fun k => (g, k)).flatten

/-! ## Helper lemmas -/

theorem updateScene_position (s : ScrollerState) : (updateScene s).position = s.position := by
  unfold updateScene
  dsimp only
  split <;> split <;> rfl

theorem updateScene_velocity (s : ScrollerState) : (updateScene s).velocity = s.velocity := by
  unfold updateScene
  dsimp only
  split <;> split <;> rfl

theorem updateScene_isSnapping (s : ScrollerState) :
    (updateScene s).isSnapping = s.isSnapping := by
  unfold updateScene
  dsimp only
  split <;> split <;> rfl

theorem updateScene_sceneRebuilt (s : ScrollerState) :
    (updateScene s).sceneRebuilt = true := by
  unfold updateScene
  dsimp only
  split <;> split <;> rfl

theorem updatePosition_position_nonneg (s : ScrollerState) (h : 0 ≤ s.position) :
    0 ≤ (updatePosition s).position := by
  unfold updatePosition
  dsimp only
  split
  · split
    · rw [updateScene_position]
      exact le_max_left 0 _
    · exact h
  · exact h

theorem updateMomentum_position (secs : List ScrollSection) (s : ScrollerState) (k : ℕ) :
    (updateMomentum secs s k).position = s.position := by
  unfold updateMomentum
  split <;> rfl

theorem handleWheel_position (s : ScrollerState) (deltaY : ℚ) (cm : Bool) :
    (handleWheel s deltaY cm).position = s.position := by
  unfold handleWheel
  split <;> rfl


/-- The integer positions that receive a section in `generateSections`: 0 or a
multiple of one of the spacing divisors 60, 40, 15, 8, 3. -/
def qualifies (p : ℕ) : Prop :=
  p = 0 ∨ p % 60 = 0 ∨ p % 40 = 0 ∨ p % 15 = 0 ∨ p % 8 = 0 ∨ p % 3 = 0

instance : DecidablePred qualifies := fun p => by
  unfold qualifies
  infer_instance

/-- The type selected by the priority order
agent > milestone > shape > decorative > micro among the spacing divisors
the position satisfies. -/
def priorityType (p : ℕ) : SectionType :=
  if p % 60 = 0 then .agent
  else if p % 40 = 0 then .milestone
  else if p % 15 = 0 then .shape
  else if p % 8 = 0 then .decorative
  else .micro

theorem sectionAt_type {p : ℕ} {s : ScrollSection} (h : sectionAt p = some s) :
    s.type = priorityType p := by
  unfold sectionAt at h
  unfold priorityType
  repeat' split at h
  all_goals first
    | exact (Option.noConfusion h)
    | (cases h; simp_all)

theorem sectionAt_micro_magnetism {p : ℕ} {s : ScrollSection} (h : sectionAt p = some s)
    (ht : s.type = SectionType.micro) : s.magnetism = 35 := by
  unfold sectionAt at h
  repeat' split at h
  all_goals first
    | exact (Option.noConfusion h)
    | (cases h; simp_all)

theorem sectionAt_isSome_of_qualifies {p : ℕ} (h : qualifies p) :
    (sectionAt p).isSome = true := by
  unfold sectionAt
  repeat' split
  all_goals simp_all [qualifies]

theorem sectionAt_eq_none_of_not_qualifies {p : ℕ} (h : ¬ qualifies p) :
    sectionAt p = none := by
  unfold sectionAt
  repeat' split
  all_goals simp_all [qualifies]

theorem mem_sectionsRaw {s : ScrollSection} :
    s ∈ sectionsRaw ↔ ∃ p, p ≤ 3000 ∧ sectionAt p = some s := by
  unfold sectionsRaw
  rw [List.mem_filterMap]
  constructor
  · rintro ⟨p, hp, hs⟩
    rw [List.mem_range] at hp
    exact ⟨p, by omega, hs⟩
  · rintro ⟨p, hp, hs⟩
    exact ⟨p, List.mem_range.mpr (by omega), hs⟩

theorem sectionsRaw_position_le {s : ScrollSection} (h : s ∈ sectionsRaw) :
    s.position ≤ 3000 := by
  obtain ⟨p, hp, hs⟩ := mem_sectionsRaw.mp h
  rw [sectionAt_position hs]
  exact hp

/-- Localization of a position-equality filter over the whole section map to
the single loop iteration that can produce it. -/
theorem filter_position_eq (p : ℕ) (hp : p ≤ 3000) :
    sectionsRaw.filter (fun s => decide (s.position = p)) = (sectionAt p).toList := by
  unfold sectionsRaw
  rw [List.filter_filterMap]
  have hg : ∀ x : ℕ, x ≠ p →
      Option.filter (fun s => decide (s.position = p)) (sectionAt x) = none := by
    intro x hx
    cases hsx : sectionAt x with
    | none => rfl
    | some s =>
        have hxpos := sectionAt_position hsx
        simp [Option.filter, hxpos, hx]
  have hsplit : List.range 3001
      = List.range' 0 p ++ p :: List.range' (p + 1) (3000 - p) := by
    have h1 := List.range'_append 0 p (3001 - p) 1
    simp only [Nat.one_mul, Nat.zero_add] at h1
    have h2 : List.range' p (3001 - p) = p :: List.range' (p + 1) (3000 - p) := by
      have h3 : 3001 - p = (3000 - p) + 1 := by omega
      rw [h3, List.range'_succ]
    have h4 : (3001 - p) + p = 3001 := by omega
    rw [List.range_eq_range', ← h4, ← h1, h2]
  rw [hsplit, List.filterMap_append]
  have hleft : (List.range' 0 p).filterMap
      (fun x => Option.filter (fun s => decide (s.position = p)) (sectionAt x)) = [] := by
    rw [List.filterMap_eq_nil_iff]
    intro a ha
    rw [List.mem_range'] at ha
    obtain ⟨i, hi, rfl⟩ := ha
    exact hg _ (by omega)
  have hright : (List.range' (p + 1) (3000 - p)).filterMap
      (fun x => Option.filter (fun s => decide (s.position = p)) (sectionAt x)) = [] := by
    rw [List.filterMap_eq_nil_iff]
    intro a ha
    rw [List.mem_range'] at ha
    obtain ⟨i, hi, rfl⟩ := ha
    exact hg _ (by omega)
  rw [hleft, List.nil_append]
  cases hsp : sectionAt p with
  | none =>
      rw [List.filterMap_cons_none (by rw [hsp]; rfl), hright]
      rfl
  | some s =>
      have hppos := sectionAt_position hsp
      have hfp : Option.filter (fun t => decide (t.position = p)) (sectionAt p) = some s := by
        rw [hsp]
        simp [Option.filter, hppos]
      rw [@List.filterMap_cons_some ℕ ScrollSection
            (fun x => Option.filter (fun t => decide (t.position = p)) (sectionAt x))
            p (List.range' (p + 1) (3000 - p)) s hfp, hright]
      rfl

theorem countP_position (p : ℕ) (hp : p ≤ 3000) :
    sectionsRaw.countP (fun s => decide (s.position = p))
      = if qualifies p then 1 else 0 := by
  rw [List.countP_eq_length_filter, filter_position_eq p hp]
  by_cases h : qualifies p
  · have hq := sectionAt_isSome_of_qualifies h
    rw [if_pos h]
    cases hs : sectionAt p with
    | none => rw [hs] at hq; exact absurd hq (by simp)
    | some s => rfl
  · rw [sectionAt_eq_none_of_not_qualifies h, if_neg h]
    rfl

theorem countP_position_of_gt (p : ℕ) (hp : 3000 < p) :
    sectionsRaw.countP (fun s => decide (s.position = p)) = 0 := by
  rw [List.countP_eq_zero]
  intro s hs
  have := sectionsRaw_position_le hs
  simp only [decide_eq_true_eq]
  omega

/-- A guarded accumulating fold is the starting value plus the sum of the
guarded terms. -/
theorem foldl_add_guard {α : Type} (p : α → Prop) [DecidablePred p] (f : α → ℚ) :
    ∀ (l : List α) (v : ℚ),
      l.foldl (fun acc x => if p x then acc + f x else acc) v
        = v + ((l.filter fun x => decide (p x)).map f).sum := by
  intro l
  induction l with
  | nil => intro v; simp
  | cons a as ih =>
      intro v
      by_cases h : p a
      · rw [List.foldl_cons, if_pos h, ih, List.filter_cons]
        simp only [decide_eq_true h, if_true, List.map_cons, List.sum_cons]
        ring
      · rw [List.foldl_cons, if_neg h, ih, List.filter_cons]
        simp only [decide_eq_false h, Bool.false_eq_true, if_false]

/-- Splitting a mapped sum along a Boolean filter. -/
theorem sum_map_filter_split {α : Type} (q : α → Bool) (f : α → ℚ) :
    ∀ l : List α,
      ((l.filter q).map f).sum + ((l.filter fun x => !(q x)).map f).sum
        = (l.map f).sum := by
  intro l
  induction l with
  | nil => simp
  | cons a as ih =>
      cases hqa : q a <;>
        simp only [List.filter_cons, hqa, Bool.not_false, Bool.not_true, if_pos, if_neg,
          List.map_cons, List.sum_cons, Bool.false_eq_true, ite_false, ite_true] <;>
        rw [← ih] <;> ring

/-- The result of a binary-choice fold is one of the inputs. -/
theorem foldl_pick_mem {α : Type} (f : α → α → α)
    (hf : ∀ a b, f a b = a ∨ f a b = b) :
    ∀ (cs : List α) (c : α), cs.foldl f c ∈ c :: cs := by
  intro cs
  induction cs with
  | nil => intro c; simp
  | cons x xs ih =>
      intro c
      rw [List.foldl_cons]
      have hmem := ih (f c x)
      rcases List.mem_cons.mp hmem with h1 | h1
      · rw [h1]
        rcases hf c x with h2 | h2 <;> rw [h2] <;> simp
      · simp [List.mem_cons, h1]

/-- When no section lies within `snapRadius`, the magnetic update is the
identity on velocity. -/
theorem applyMagneticForces_of_far (secs : List ScrollSection) (pos : ℚ)
    (h : ∀ sec ∈ secs, ¬ |(sec.position : ℚ) - pos| ≤ snapRadius) :
    ∀ u : ℚ, applyMagneticForces secs pos u = u := by
  intro u
  unfold applyMagneticForces
  have hnil : (secs.filter fun sec => |(sec.position : ℚ) - pos| ≤ snapRadius) = [] := by
    rw [List.filter_eq_nil_iff]
    intro sec hsec
    simp only [decide_eq_true_eq]
    exact h sec hsec
  split
  · rfl
  · rw [hnil]
    rfl

/-- No section of the map lies within `snapRadius` of position 3100. -/
theorem sectionsRaw_far_3100 :
    ∀ sec ∈ sectionsRaw, ¬ |(sec.position : ℚ) - 3100| ≤ snapRadius := by
  intro sec hsec
  have hle := sectionsRaw_position_le hsec
  have hcast : (sec.position : ℚ) ≤ 3000 := by exact_mod_cast hle
  rw [abs_sub_comm, abs_of_nonneg (by linarith)]
  unfold snapRadius
  intro hcon
  linarith

/-- The clamp at the end of `updateMomentum` never increases speed. -/
theorem clampVelocity_abs_le (v : ℚ) : |clampVelocity v| ≤ |v| := by
  unfold clampVelocity
  split
  · simp only [abs_zero]
    exact abs_nonneg v
  · rcases le_total 0 v with hv | hv
    · have h1 : (0 : ℚ) ≤ min maxVelocity v := le_min (by norm_num [maxVelocity]) hv
      rw [max_eq_right (by linarith [neg_nonpos_of_nonneg (show (0:ℚ) ≤ maxVelocity by norm_num [maxVelocity])] : -maxVelocity ≤ min maxVelocity v)]
      rw [abs_of_nonneg h1, abs_of_nonneg hv]
      exact min_le_right _ _
    · have h2 : min maxVelocity v = v := min_eq_right (by norm_num [maxVelocity]; linarith)
      rw [h2]
      have h3 : max (-maxVelocity) v ≤ 0 := max_le (by norm_num [maxVelocity]) hv
      rw [abs_of_nonpos h3, abs_of_nonpos hv]
      simp only [neg_le_neg_iff]
      exact le_max_right _ _

/-! ## Spec-side magnetic-pull formulations (for claim comparison) -/

/-- The per-section magnetic contribution
`sign(distance) * (magnetism/100) * (1 - |distance|/snapRadius) * 0.02`. -/
def magneticForceTerm (currentPos : ℚ) (sec : ScrollSection) : ℚ :=
  mathSign ((sec.position : ℚ) - currentPos) *
    ((sec.magnetism / 100) * (1 - |(sec.position : ℚ) - currentPos| / snapRadius)) * 0.02

/-- The magnetic pull exactly as the claim words it: when nearly stopped, for
EVERY section within `snapRadius` of the current position the force term is
added, with no further exclusion. -/
def claimMagneticForces (secs : List ScrollSection) (currentPos velocity : ℚ) : ℚ :=
  if 5 < |velocity| then velocity
  else velocity +
    ((secs.filter fun sec =>
        decide (|(sec.position : ℚ) - currentPos| ≤ snapRadius)).map
      (magneticForceTerm currentPos)).sum

/-- The amended formulation: only sections at distance strictly greater than
0.5 (and within `snapRadius`) contribute. -/
def amendedMagneticForces (secs : List ScrollSection) (currentPos velocity : ℚ) : ℚ :=
  if 5 < |velocity| then velocity
  else velocity +
    ((secs.filter fun sec =>
        decide (0.5 < |(sec.position : ℚ) - currentPos| ∧
          |(sec.position : ℚ) - currentPos| ≤ snapRadius)).map
      (magneticForceTerm currentPos)).sum

theorem applyMagneticForces_eq_amended (secs : List ScrollSection) (pos v : ℚ) :
    applyMagneticForces secs pos v = amendedMagneticForces secs pos v := by
  unfold applyMagneticForces amendedMagneticForces
  split
  · rfl
  · dsimp only
    rw [foldl_add_guard
        (fun sec : ScrollSection => 0.5 < |(sec.position : ℚ) - pos| ∧
          |(sec.position : ℚ) - pos| ≤ snapRadius)
        (fun sec : ScrollSection => mathSign ((sec.position : ℚ) - pos) *
          ((sec.magnetism / 100) * (1 - |(sec.position : ℚ) - pos| / snapRadius)) * 0.02)]
    rw [List.filter_filter]
    congr 1
    apply congrArg
    apply congrArg
    apply List.filter_congr
    intro x _
    by_cases hx : 0.5 < |(x.position : ℚ) - pos| ∧ |(x.position : ℚ) - pos| ≤ snapRadius
    · simp [hx, hx.2]
    · simp [hx]

theorem updateScene_inputAccumulator (s : ScrollerState) :
    (updateScene s).inputAccumulator = s.inputAccumulator := by
  unfold updateScene
  dsimp only
  split <;> split <;> rfl

theorem updateMomentum_of_snapping (secs : List ScrollSection) (s : ScrollerState) (k : ℕ)
    (h : s.isSnapping = true) : updateMomentum secs s k = s := by
  unfold updateMomentum
  rw [h]
  rfl

theorem updateScene_bgFired (x : ScrollerState) :
    (updateScene x).bgFired = decide (⌊x.position / 60⌋ ≠ x.currentAgent) := by
  by_cases hc : ⌊x.position / 60⌋ ≠ x.currentAgent
  · simp only [updateScene, if_pos hc]
    split <;> simp [hc]
  · simp only [updateScene, if_neg hc]
    split <;> simp [hc]

theorem updateScene_currentAgent (x : ScrollerState) :
    (updateScene x).currentAgent = ⌊x.position / 60⌋ := by
  by_cases hc : ⌊x.position / 60⌋ ≠ x.currentAgent
  · simp only [updateScene, if_pos hc]
    split <;> rfl
  · push_neg at hc
    simp only [updateScene, if_neg (by simp [hc] : ¬ ⌊x.position / 60⌋ ≠ x.currentAgent)]
    split <;> simp [hc]

theorem freeStep_nonneg (secs : List ScrollSection) (s : ScrollerState)
    (h : 0 ≤ s.position) (input : ℚ × ℕ) : 0 ≤ (freeStep secs s input).position := by
  unfold freeStep
  apply updatePosition_position_nonneg
  rw [updateMomentum_position, handleWheel_position]
  exact h

theorem foldl_freeStep_nonneg (secs : List ScrollSection) (inputs : List (ℚ × ℕ)) :
    ∀ s : ScrollerState, 0 ≤ s.position → 0 ≤ (inputs.foldl (freeStep secs) s).position := by
  induction inputs with
  | nil => intro s h; exact h
  | cons i is ih =>
      intro s h
      exact ih _ (freeStep_nonneg secs s h i)

/-! ## Claim theorems -/

/-- C1: after every free-mode integration step the path position is
nonnegative: `updatePosition` computes `max(0, position + velocity)` (and
`SmoothSectionScroller.applyImmediateScroll` computes
`max(0, position + movement)`), so starting from position 0, every sequence of
wheel inputs and integration steps keeps `position ≥ 0`. -/
theorem position_nonneg_invariant :
    (∀ s : ScrollerState, 0 ≤ s.position → 0 ≤ (updatePosition s).position) ∧
    (∀ (secs : List ScrollSection) (inputs : List (ℚ × ℕ)),
        0 ≤ (inputs.foldl (freeStep secs) initialState).position) ∧
    (∀ position scrollAccumulator : ℚ, 0 ≤ position →
        0 ≤ (applyImmediateScroll position scrollAccumulator).1) := by
  refine ⟨updatePosition_position_nonneg, ?_, ?_⟩
  · intro secs inputs
    exact foldl_freeStep_nonneg secs inputs initialState le_rfl
  · intro position scrollAccumulator h
    unfold applyImmediateScroll
    dsimp only
    split
    · exact le_max_left 0 _
    · exact h

/-- Witness for C1 at concrete inputs. -/
theorem position_nonneg_invariant_witness :
    (0 : ℚ) ≤ ({ initialState with position := 5, velocity := -100 } : ScrollerState).position ∧
    0 ≤ (updatePosition { initialState with position := 5, velocity := -100 }).position ∧
    0 ≤ (([((120 : ℚ), 1), ((-300 : ℚ), 1)] : List (ℚ × ℕ)).foldl
          (freeStep generateSections) initialState).position ∧
    0 ≤ (applyImmediateScroll 0 (-7)).1 :=
  ⟨by norm_num,
   position_nonneg_invariant.1 _ (by norm_num),
   position_nonneg_invariant.2.1 generateSections _,
   position_nonneg_invariant.2.2 0 (-7) le_rfl⟩

/-- C2 counterexample: `handleWheel` is not guarded by `isSnapping`, so a
wheel event received while a snap is in flight gives the velocity a nonzero
value, and the next physics frame (whose `updatePosition` is likewise
unguarded) then mutates the position by free-mode integration even though
`isSnapping` is still true. -/
theorem wheel_during_snap_moves_position :
    (updatePosition (updateMomentum generateSections
        (handleWheel { initialState with isSnapping := true } 120 false) 1)).isSnapping = true ∧
    (updatePosition (updateMomentum generateSections
        (handleWheel { initialState with isSnapping := true } 120 false) 1)).velocity ≠ 0 ∧
    (updatePosition (updateMomentum generateSections
        (handleWheel { initialState with isSnapping := true } 120 false) 1)).position ≠
      ({ initialState with isSnapping := true } : ScrollerState).position := by
  have h1 : handleWheel { initialState with isSnapping := true } 120 false =
      { position := 0, velocity := 2.16, inputAccumulator := 1.2, isScrolling := true,
        isSnapping := true, currentTween := none, lastTargetSection := none,
        currentAgent := 0, lastPlayedAgent := none, bgFired := false,
        sceneRebuilt := false } := by
    unfold handleWheel
    norm_num [initialState, mathSign, accelerationMultiplier, maxVelocity]
  rw [updateMomentum_of_snapping generateSections _ 1 (by rw [h1])]
  rw [h1]
  unfold updatePosition
  norm_num
  have habs : |(54 : ℚ)/25| = 54/25 := abs_of_pos (by norm_num)
  rw [habs]
  norm_num [updateScene_position, updateScene_velocity, updateScene_isSnapping, initialState]

/-- C2 (amended): within the physics frame itself the exclusion holds — while
`isSnapping` the momentum step applies no friction, impulse folding or
magnetism (it is the identity), a zero velocity is never integrated by
`updatePosition`, and entering a snap zeroes both velocity and the pending
impulse. Only device input delivered during a snap (wheel/touch handlers are
not guarded by `isSnapping`) can re-introduce a nonzero velocity that
free-mode integration then applies. -/
theorem snapping_blocks_frame_physics :
    (∀ (secs : List ScrollSection) (s : ScrollerState) (k : ℕ),
        s.isSnapping = true → updateMomentum secs s k = s) ∧
    (∀ s : ScrollerState, s.velocity = 0 → updatePosition s = s) ∧
    (∀ (g : Bool) (s : ScrollerState) (t : ScrollSection), s.isSnapping = false →
        (snapToSection g s t).velocity = 0 ∧
        (snapToSection g s t).inputAccumulator = 0) := by
  refine ⟨updateMomentum_of_snapping, ?_, ?_⟩
  · intro s hv
    unfold updatePosition
    rw [hv]
    norm_num
  · intro g s t h
    unfold snapToSection killAllTweens
    rw [if_neg (by simp [h])]
    dsimp only
    cases g
    · rw [if_pos rfl, if_neg (by simp)]
      constructor
      · rw [updateScene_velocity]
      · rw [updateScene_inputAccumulator]
    · rw [if_neg (by simp), if_pos rfl]
      exact ⟨rfl, rfl⟩

/-- Witness for C2 (amended) at concrete states. -/
theorem snapping_blocks_frame_physics_witness :
    updateMomentum generateSections { initialState with isSnapping := true } 3 =
      { initialState with isSnapping := true } ∧
    updatePosition initialState = initialState ∧
    (snapToSection true initialState ⟨60, SectionType.agent, 100, 2.0⟩).velocity = 0 :=
  ⟨snapping_blocks_frame_physics.1 generateSections _ 3 rfl,
   snapping_blocks_frame_physics.2.1 initialState rfl,
   (snapping_blocks_frame_physics.2.2 true initialState _ rfl).1⟩

/-- C4 counterexample: with a transition already in flight toward the agent
section at position 60, requesting a snap to the distinct agent section at
position 120 leaves the state entirely unchanged (early return) — the
in-flight tween is not killed and no transition to the new target starts. -/
theorem snap_request_while_snapping_is_noop :
    snapToSection true
        { initialState with isSnapping := true, currentTween := some ⟨60, SectionType.agent, 100, 2.0⟩ }
        ⟨120, SectionType.agent, 100, 2.0⟩
      = { initialState with isSnapping := true, currentTween := some ⟨60, SectionType.agent, 100, 2.0⟩ } ∧
    (⟨60, SectionType.agent, 100, 2.0⟩ : ScrollSection) ≠
      ⟨120, SectionType.agent, 100, 2.0⟩ := by
  constructor
  · rfl
  · intro h
    exact absurd (congrArg ScrollSection.position h) (by decide)

/-- C4 (amended): a snap request while a transition is in flight is rejected
by the `isSnapping` early return (not cancelled-and-replaced); a request in
the idle state first kills any existing tween and installs the new target as
the unique current tween — so no two concurrent transitions ever drive the
position, by rejection of new requests rather than by cancellation of the
in-flight one. -/
theorem snapToSection_no_stacking :
    (∀ (g : Bool) (s : ScrollerState) (t : ScrollSection),
        s.isSnapping = true → snapToSection g s t = s) ∧
    (∀ (s : ScrollerState) (t : ScrollSection), s.isSnapping = false →
        (snapToSection true s t).currentTween = some t ∧
        (snapToSection true s t).isSnapping = true) ∧
    (∀ s : ScrollerState, (killAllTweens true s).currentTween = none) := by
  refine ⟨?_, ?_, ?_⟩
  · intro g s t h
    unfold snapToSection
    rw [if_pos (by simp [h])]
  · intro s t h
    unfold snapToSection killAllTweens
    rw [if_neg (by simp [h])]
    dsimp only
    rw [if_neg (by simp), if_pos rfl]
    exact ⟨rfl, rfl⟩
  · intro s
    rfl

/-- Witness for C4 (amended) at concrete states. -/
theorem snapToSection_no_stacking_witness :
    snapToSection false { initialState with isSnapping := true }
        ⟨120, SectionType.agent, 100, 2.0⟩ = { initialState with isSnapping := true } ∧
    (snapToSection true initialState ⟨60, SectionType.agent, 100, 2.0⟩).currentTween =
      some ⟨60, SectionType.agent, 100, 2.0⟩ ∧
    (killAllTweens true { initialState with currentTween := some ⟨60, SectionType.agent, 100, 2.0⟩ }).currentTween = none :=
  ⟨snapToSection_no_stacking.1 false _ _ rfl,
   (snapToSection_no_stacking.2.1 initialState _ rfl).1,
   snapToSection_no_stacking.2.2 _⟩

/-- C7: snap convergence and gsap-absent degradation: starting a snap from an
idle state always ends with the position exactly at the target section's
position — with gsap absent through the instant-assignment fallback (scene
rebuilt, snapping flag cleared), with gsap present at tween completion. -/
theorem snap_convergence (s : ScrollerState) (t : ScrollSection)
    (h : s.isSnapping = false) :
    (snapToSection false s t).position = (t.position : ℚ) ∧
    (snapToSection false s t).isSnapping = false ∧
    (snapToSection false s t).sceneRebuilt = true ∧
    (completeTween (snapToSection true s t)).position = (t.position : ℚ) ∧
    (completeTween (snapToSection true s t)).isSnapping = false := by
  have hdeg : snapToSection false s t =
      { (updateScene { s with isSnapping := true, isScrolling := false, velocity := 0, inputAccumulator := 0, position := (t.position : ℚ) }) with isSnapping := false } := by
    unfold snapToSection killAllTweens
    rw [if_neg (by simp [h])]
    dsimp only
    rw [if_pos rfl, if_neg (by simp)]
  have htween : snapToSection true s t =
      { s with isSnapping := true, isScrolling := false, velocity := 0, inputAccumulator := 0, currentTween := some t } := by
    unfold snapToSection killAllTweens
    rw [if_neg (by simp [h])]
    dsimp only
    rw [if_neg (by simp), if_pos rfl]
  refine ⟨?_, ?_, ?_, ?_, ?_⟩
  · rw [hdeg]
    show (updateScene _).position = _
    rw [updateScene_position]
  · rw [hdeg]
  · rw [hdeg]
    show (updateScene _).sceneRebuilt = true
    rw [updateScene_sceneRebuilt]
  · rw [htween]
    show (updateScene _).position = _
    rw [updateScene_position]
  · rw [htween]
    rfl

/-- Witness for C7: snapping from rest to the agent section at position 60. -/
theorem snap_convergence_witness :
    initialState.isSnapping = false ∧
    (snapToSection false initialState ⟨60, SectionType.agent, 100, 2.0⟩).position = 60 ∧
    (completeTween (snapToSection true initialState ⟨60, SectionType.agent, 100, 2.0⟩)).position = 60 := by
  refine ⟨rfl, ?_, ?_⟩
  · have h := (snap_convergence initialState ⟨60, SectionType.agent, 100, 2.0⟩ rfl).1
    rw [h]
    norm_num
  · have h := (snap_convergence initialState ⟨60, SectionType.agent, 100, 2.0⟩ rfl).2.2.2.1
    rw [h]
    norm_num

/-- C9: the background notifier is edge-triggered: `updateScene` calls
`updateBackgroundForAgent` exactly when the derived index
`floor(position / 60)` differs from the last-known index, records the new
index, and therefore never fires again while the derived index is
unchanged. -/
theorem background_notifier_edge_triggered (s : ScrollerState) :
    ((updateScene s).bgFired = true ↔ ⌊s.position / 60⌋ ≠ s.currentAgent) ∧
    (updateScene s).currentAgent = ⌊s.position / 60⌋ ∧
    (∀ s2 : ScrollerState, s2.currentAgent = (updateScene s).currentAgent →
        ⌊s2.position / 60⌋ = ⌊s.position / 60⌋ →
        (updateScene s2).bgFired = false) := by
  refine ⟨?_, updateScene_currentAgent s, ?_⟩
  · rw [updateScene_bgFired]
    simp
  · intro s2 h1 h2
    rw [updateScene_bgFired, h1, updateScene_currentAgent, h2]
    simp

/-- Witness for C9: at position 130 the derived agent index is 2, so the
first `updateScene` fires the notifier and an immediately repeated
`updateScene` does not. -/
theorem background_notifier_edge_triggered_witness :
    (updateScene { initialState with position := 130 }).bgFired = true ∧
    (updateScene (updateScene { initialState with position := 130 })).bgFired = false := by
  have hfl : ⌊(130 : ℚ) / 60⌋ = 2 := by
    rw [Int.floor_eq_iff]
    norm_num
  constructor
  · exact (background_notifier_edge_triggered _).1.mpr (by rw [hfl]; simp [initialState])
  · exact (background_notifier_edge_triggered _).2.2 _ rfl (by rw [updateScene_position])

/-- With no snap in progress, no pending impulse and no magnetic
contribution, one `updateMomentum` step is exactly the clamped friction
decay. -/
theorem updateMomentum_free (secs : List ScrollSection) (s : ScrollerState) (k : ℕ)
    (hsnap : s.isSnapping = false) (hacc : s.inputAccumulator = 0)
    (hmag : ∀ u : ℚ, applyMagneticForces secs s.position u = u) :
    updateMomentum secs s k =
      { s with velocity := clampVelocity (s.velocity * friction ^ k) } := by
  unfold updateMomentum
  rw [if_neg (by simp [hsnap])]
  dsimp only
  rw [hacc]
  rw [if_neg (by norm_num), if_neg (by norm_num)]
  rw [hmag]

/-- C5: absent new impulses and magnetism, and while not snapping, speed is
non-increasing step over step under the frame-rate-independent decay
`velocity *= friction ^ k`, and from any speed within `maxVelocity` the
velocity is clamped to exactly 0 within two frames (the clamp zeroes any
speed below `minVelocity`). -/
theorem friction_decay_monotone (secs : List ScrollSection) (s : ScrollerState)
    (hsnap : s.isSnapping = false) (hacc : s.inputAccumulator = 0)
    (hmag : ∀ u : ℚ, applyMagneticForces secs s.position u = u) :
    (∀ k : ℕ, |(updateMomentum secs s k).velocity| ≤ |s.velocity|) ∧
    (∀ k₁ k₂ : ℕ, 1 ≤ k₁ → 1 ≤ k₂ → |s.velocity| ≤ maxVelocity →
        (updateMomentum secs (updateMomentum secs s k₁) k₂).velocity = 0) := by
  have hfr0 : (0 : ℚ) ≤ friction := by norm_num [friction]
  have hfr1 : friction ≤ 1 := by norm_num [friction]
  constructor
  · intro k
    rw [updateMomentum_free secs s k hsnap hacc hmag]
    refine le_trans (clampVelocity_abs_le _) ?_
    rw [abs_mul, abs_pow, abs_of_nonneg hfr0]
    have h1 : friction ^ k ≤ 1 := pow_le_one₀ hfr0 hfr1
    calc |s.velocity| * friction ^ k ≤ |s.velocity| * 1 :=
          mul_le_mul_of_nonneg_left h1 (abs_nonneg _)
      _ = |s.velocity| := mul_one _
  · intro k₁ k₂ hk₁ hk₂ hv
    have hv25 : |s.velocity| ≤ 25 := hv
    have h1 := updateMomentum_free secs s k₁ hsnap hacc hmag
    have hsnap1 : (updateMomentum secs s k₁).isSnapping = false := by rw [h1]; exact hsnap
    have hacc1 : (updateMomentum secs s k₁).inputAccumulator = 0 := by rw [h1]; exact hacc
    have hpos1 : (updateMomentum secs s k₁).position = s.position := by rw [h1]
    have hmag1 : ∀ u : ℚ, applyMagneticForces secs (updateMomentum secs s k₁).position u = u := by
      rw [hpos1]; exact hmag
    rw [updateMomentum_free secs _ k₂ hsnap1 hacc1 hmag1]
    have hfk1 : friction ^ k₁ ≤ friction := by
      have := pow_le_pow_of_le_one hfr0 hfr1 hk₁
      simpa using this
    have hfk2 : friction ^ k₂ ≤ friction := by
      have := pow_le_pow_of_le_one hfr0 hfr1 hk₂
      simpa using this
    have hv1 : |(updateMomentum secs s k₁).velocity| ≤ 25 * friction := by
      rw [h1]
      refine le_trans (clampVelocity_abs_le _) ?_
      rw [abs_mul, abs_pow, abs_of_nonneg hfr0]
      exact mul_le_mul hv25 hfk1 (by positivity) (by norm_num)
    have habs : |(updateMomentum secs s k₁).velocity * friction ^ k₂| < minVelocity := by
      rw [abs_mul, abs_pow, abs_of_nonneg hfr0]
      have h2 : |(updateMomentum secs s k₁).velocity| * friction ^ k₂
          ≤ (25 * friction) * friction :=
        mul_le_mul hv1 hfk2 (by positivity) (by positivity)
      refine lt_of_le_of_lt h2 ?_
      norm_num [friction, minVelocity]
    show clampVelocity _ = 0
    unfold clampVelocity
    rw [if_pos habs]

/-- Witness for C5: from speed 25 at position 3100 (no section of the map is
within `snapRadius` there), two nominal frames suffice to reach velocity 0. -/
theorem friction_decay_monotone_witness :
    |(updateMomentum generateSections { initialState with position := 3100, velocity := 25 } 1).velocity|
      ≤ |({ initialState with position := 3100, velocity := 25 } : ScrollerState).velocity| ∧
    (updateMomentum generateSections
        (updateMomentum generateSections { initialState with position := 3100, velocity := 25 } 1) 1).velocity = 0 := by
  have hmag : ∀ u : ℚ, applyMagneticForces generateSections
      ({ initialState with position := 3100, velocity := 25 } : ScrollerState).position u = u := by
    refine applyMagneticForces_of_far generateSections _ ?_
    intro sec hsec
    rw [generateSections_eq] at hsec
    exact sectionsRaw_far_3100 sec hsec
  refine ⟨(friction_decay_monotone generateSections _ rfl rfl hmag).1 1,
          (friction_decay_monotone generateSections _ rfl rfl hmag).2 1 1 le_rfl le_rfl ?_⟩
  show |(25 : ℚ)| ≤ maxVelocity
  norm_num [maxVelocity]

/-- C3 counterexample: position 1 (an integer position below the horizon)
receives no section at all — the loop body of `generateSections` only pushes
a section when the position matches one of the spacing divisors, so the map
does not contain one section for EVERY integer position. -/
theorem no_section_at_position_one :
    ¬ ∃ s ∈ generateSections, s.position = 1 := by
  rintro ⟨s, hs, hpos⟩
  rw [generateSections_eq] at hs
  obtain ⟨p, hp, hsp⟩ := mem_sectionsRaw.mp hs
  have hap := sectionAt_position hsp
  obtain rfl : p = 1 := hap.symm.trans hpos
  have hnone : sectionAt 1 = none := by decide
  rw [hnone] at hsp
  exact Option.noConfusion hsp

/-- C3 (amended): `generateSections` produces exactly one section for every
integer position up to the horizon 3000 that is 0 or a multiple of one of the
spacing divisors (60, 40, 15, 8, 3) — and none for any other position —
choosing the type by the priority order
agent > milestone > shape > decorative > micro, and the resulting sequence is
sorted ascending by position. -/
theorem generateSections_characterization :
    (∀ p : ℕ, p ≤ 3000 → qualifies p →
        generateSections.countP (fun s => decide (s.position = p)) = 1 ∧
        ∀ s ∈ generateSections, s.position = p → s.type = priorityType p) ∧
    (∀ p : ℕ, ¬ qualifies p →
        generateSections.countP (fun s => decide (s.position = p)) = 0) ∧
    (∀ p : ℕ, 3000 < p →
        generateSections.countP (fun s => decide (s.position = p)) = 0) ∧
    generateSections.Pairwise (fun a b => a.position ≤ b.position) := by
  rw [generateSections_eq]
  refine ⟨?_, ?_, ?_, ?_⟩
  · intro p hp hq
    constructor
    · rw [countP_position p hp, if_pos hq]
    · intro s hs hpos
      obtain ⟨a, ha, hsa⟩ := mem_sectionsRaw.mp hs
      have hap := sectionAt_position hsa
      obtain rfl : a = p := hap.symm.trans hpos
      exact sectionAt_type hsa
  · intro p hq
    by_cases hp : p ≤ 3000
    · rw [countP_position p hp, if_neg hq]
    · exact countP_position_of_gt p (by omega)
  · intro p hp
    exact countP_position_of_gt p hp
  · refine sectionsRaw_pairwise.imp ?_
    intro a b h
    exact Nat.le_of_lt h

/-- Witness for C3 (amended) at positions 120 (agent slot), 1 (no divisor)
and 3456 (beyond the horizon). -/
theorem generateSections_characterization_witness :
    generateSections.countP (fun s => decide (s.position = 120)) = 1 ∧
    generateSections.countP (fun s => decide (s.position = 1)) = 0 ∧
    generateSections.countP (fun s => decide (s.position = 3456)) = 0 :=
  ⟨(generateSections_characterization.1 120 (by norm_num) (by decide)).1,
   generateSections_characterization.2.1 1 (by decide),
   generateSections_characterization.2.2.1 3456 (by norm_num)⟩

/-- C6 (amended): magnetic pull is applied only when `|velocity| ≤ 5`
(nearly stopped), and then adds, for every section at distance strictly
greater than 0.5 and at most `snapRadius` from the current position, the
force `sign(distance) * (magnetism/100) * (1 - |distance|/snapRadius) * 0.02`,
accumulating the contributions of all such sections; sections closer than
0.5 units are skipped by the inner guard. -/
theorem magnetic_pull_characterization :
    (∀ (secs : List ScrollSection) (pos v : ℚ), 5 < |v| →
        applyMagneticForces secs pos v = v) ∧
    (∀ (secs : List ScrollSection) (pos v : ℚ),
        applyMagneticForces secs pos v = amendedMagneticForces secs pos v) := by
  constructor
  · intro secs pos v hv
    unfold applyMagneticForces
    rw [if_pos hv]
  · exact applyMagneticForces_eq_amended

/-- Witness for C6 (amended): a fast scroll is unaffected, and the refinement
equality instantiated at the full section map near position 0.4. -/
theorem magnetic_pull_characterization_witness :
    applyMagneticForces generateSections 0 10 = 10 ∧
    applyMagneticForces generateSections 0.4 0 =
      amendedMagneticForces generateSections 0.4 0 :=
  ⟨magnetic_pull_characterization.1 generateSections 0 10 (by norm_num),
   magnetic_pull_characterization.2 generateSections 0.4 0⟩

/-- C6 counterexample: at position 0.4 with velocity 0 the agent section at
position 0 lies within `snapRadius` (distance 0.4), so the claim formula adds
its force term, but `applyMagneticForces` skips it (the inner guard requires
distance strictly greater than 0.5) — the two totals differ. -/
theorem magnetic_pull_skips_close_sections :
    claimMagneticForces generateSections 0.4 0 ≠
      applyMagneticForces generateSections 0.4 0 := by
  rw [applyMagneticForces_eq_amended, generateSections_eq]
  unfold claimMagneticForces amendedMagneticForces
  rw [if_neg (by norm_num), if_neg (by norm_num)]
  have hsplit := sum_map_filter_split
    (fun sec : ScrollSection => decide (0.5 < |(sec.position : ℚ) - 0.4|))
    (magneticForceTerm 0.4)
    (sectionsRaw.filter fun sec => decide (|(sec.position : ℚ) - 0.4| ≤ snapRadius))
  have hAq : (sectionsRaw.filter fun sec =>
        decide (|(sec.position : ℚ) - 0.4| ≤ snapRadius)).filter
          (fun sec : ScrollSection => decide (0.5 < |(sec.position : ℚ) - 0.4|))
      = sectionsRaw.filter fun sec =>
          decide (0.5 < |(sec.position : ℚ) - 0.4| ∧
            |(sec.position : ℚ) - 0.4| ≤ snapRadius) := by
    rw [List.filter_filter]
    apply List.filter_congr
    intro x _
    simp
  have hAnotq : (sectionsRaw.filter fun sec =>
        decide (|(sec.position : ℚ) - 0.4| ≤ snapRadius)).filter
          (fun sec : ScrollSection => !(decide (0.5 < |(sec.position : ℚ) - 0.4|)))
      = [⟨0, SectionType.agent, 100, 1.8⟩] := by
    rw [List.filter_filter]
    have hcongr : ∀ x ∈ sectionsRaw,
        (!(decide (0.5 < |(x.position : ℚ) - 0.4|)) &&
          decide (|(x.position : ℚ) - 0.4| ≤ snapRadius))
        = decide (x.position = 0) := by
      intro x _
      rcases Nat.eq_zero_or_pos x.position with h0 | hpos
      · rw [h0]
        norm_num [snapRadius, abs_le]
      · have h1 : (1 : ℚ) ≤ (x.position : ℚ) := by exact_mod_cast hpos
        have hgt : (0.5 : ℚ) < |(x.position : ℚ) - 0.4| := by
          rw [abs_of_nonneg (by linarith)]
          linarith
        have hne : x.position ≠ 0 := by omega
        simp [hgt, hne]
    rw [List.filter_congr hcongr, filter_position_eq 0 (by norm_num)]
    rfl
  rw [← hsplit, hAq, hAnotq]
  have hval : (([⟨0, SectionType.agent, 100, 1.8⟩] : List ScrollSection).map
      (magneticForceTerm 0.4)).sum = -(37/1875) := by
    have habs : |(2 : ℚ)/5| = 2/5 := abs_of_nonneg (by norm_num)
    norm_num [magneticForceTerm, mathSign, snapRadius, habs]
  rw [hval]
  intro h
  linarith

/-- C8 counterexample: rebuilding at position 90 with visibility radius 30
covers global rows [60, 120) only; row 40 lies outside that window, so no
milestone text is emitted at row 40 (contrary to the claim). -/
theorem no_milestone_at_row_40 :
    (40, DecoKind.milestoneText) ∉ createDottedPath 90 := by
  have hstart : hasScrollStarted 90 = true := by
    unfold hasScrollStarted scrollThreshold
    norm_num
  have hfloor : ⌊(90 : ℚ)⌋ = 90 := by norm_num
  simp only [createDottedPath, hstart, hfloor]
  decide

/-- C8 (amended): rebuilding at position 90 emits the every-90 feature object
(Spline placeholder) at row 90 and milestone text at row 80; it emits no
milestone at row 60 — 60 is not a multiple of 40, the row gets the agent box
instead — and no milestone at row 40, which lies outside the visible window
[60, 120). -/
theorem createDottedPath_at_90 :
    (90, DecoKind.splineObject) ∈ createDottedPath 90 ∧
    (80, DecoKind.milestoneText) ∈ createDottedPath 90 ∧
    (60, DecoKind.agentBox) ∈ createDottedPath 90 ∧
    (60, DecoKind.milestoneText) ∉ createDottedPath 90 ∧
    (40, DecoKind.milestoneText) ∉ createDottedPath 90 := by
  have hstart : hasScrollStarted 90 = true := by
    unfold hasScrollStarted scrollThreshold
    norm_num
  have hfloor : ⌊(90 : ℚ)⌋ = 90 := by norm_num
  simp only [createDottedPath, hstart, hfloor]
  refine ⟨by decide, by decide, by decide, by decide, by decide⟩

/-- The scored pick of `findBestSnapTarget` returns one of the filtered
candidates, hence a member of the section list. -/
theorem findBestSnapTarget_mem (secs : List ScrollSection) (s : ScrollerState)
    (t : ScrollSection) (h : findBestSnapTarget secs s = some t) : t ∈ secs := by
  unfold findBestSnapTarget at h
  dsimp only at h
  split at h
  · exact Option.noConfusion h
  · rename_i c cs heq
    injection h with h
    have hf : ∀ a b : ScrollSection,
        (if scoreSection s.position
              (s.position + mathSign s.velocity * min (|s.velocity| * 2) 20) a <
            scoreSection s.position
              (s.position + mathSign s.velocity * min (|s.velocity| * 2) 20) b
          then b else a) = a ∨
        (if scoreSection s.position
              (s.position + mathSign s.velocity * min (|s.velocity| * 2) 20) a <
            scoreSection s.position
              (s.position + mathSign s.velocity * min (|s.velocity| * 2) 20) b
          then b else a) = b := by
      intro a b
      split
      · exact Or.inr rfl
      · exact Or.inl rfl
    have hmem := foldl_pick_mem _ hf cs c
    rw [h] at hmem
    rw [← heq] at hmem
    exact List.mem_of_mem_filter hmem

/-- C10: every snap target — from the auto-snap trigger (`checkForAutoSnap`)
or from keyboard/click navigation (`findTargetSection`) — has type agent or
magnetism at least 55; all micro sections of the generated map have magnetism
35, so a micro section is never chosen as a snap target. -/
theorem snap_targets_never_micro :
    (∀ (secs : List ScrollSection) (st : ScrollerState) (t : ScrollSection),
        checkForAutoSnap secs st = some t → 55 ≤ t.magnetism ∧ t ∈ secs) ∧
    (∀ (secs : List ScrollSection) (pos : ℚ) (dir : ℤ) (ty : SnapType) (t : ScrollSection),
        findTargetSection secs pos dir ty = some t →
          (t.type = SectionType.agent ∨ 55 ≤ t.magnetism) ∧ t ∈ secs) ∧
    (∀ t ∈ generateSections, 55 ≤ t.magnetism → t.type ≠ SectionType.micro) ∧
    (∀ t ∈ generateSections, t.type = SectionType.micro → t.magnetism = 35) := by
  have h4 : ∀ t ∈ generateSections, t.type = SectionType.micro → t.magnetism = 35 := by
    intro t ht hty
    rw [generateSections_eq] at ht
    obtain ⟨p, hp, hsp⟩ := mem_sectionsRaw.mp ht
    exact sectionAt_micro_magnetism hsp hty
  refine ⟨?_, ?_, ?_, h4⟩
  · intro secs st t h
    unfold checkForAutoSnap at h
    by_cases h1 : (st.isSnapping || st.isScrolling) = true
    · rw [if_pos h1] at h
      exact Option.noConfusion h
    · rw [if_neg h1] at h
      dsimp only at h
      by_cases h2 : 0.1 < |st.velocity| ∧ |st.velocity| < 2
      · rw [if_pos h2] at h
        cases hbest : findBestSnapTarget secs st with
        | none =>
            rw [hbest] at h
            exact Option.noConfusion h
        | some t' =>
            rw [hbest] at h
            dsimp only at h
            by_cases h3 : |(t'.position : ℚ) - st.position| ≤ snapRadius ∧ 55 ≤ t'.magnetism
            · rw [if_pos h3] at h
              injection h with h
              subst h
              exact ⟨h3.2, findBestSnapTarget_mem secs st t' hbest⟩
            · rw [if_neg h3] at h
              exact Option.noConfusion h
      · rw [if_neg h2] at h
        exact Option.noConfusion h
  · intro secs pos dir ty t h
    unfold findTargetSection at h
    cases ty <;> dsimp only at h
    · split at h <;>
      · first
        | (have hmem := List.mem_of_find?_eq_some h
           have hflt := List.of_mem_filter hmem
           exact ⟨Or.inl (by simpa using hflt), List.mem_of_mem_filter hmem⟩)
        | (have hmem := List.mem_reverse.mp (List.mem_of_find?_eq_some h)
           have hflt := List.of_mem_filter hmem
           exact ⟨Or.inl (by simpa using hflt), List.mem_of_mem_filter hmem⟩)
    · split at h <;>
      · first
        | (have hmem := List.mem_of_find?_eq_some h
           have hflt := List.of_mem_filter hmem
           exact ⟨Or.inr (by simpa using hflt), List.mem_of_mem_filter hmem⟩)
        | (have hmem := List.mem_reverse.mp (List.mem_of_find?_eq_some h)
           have hflt := List.of_mem_filter hmem
           exact ⟨Or.inr (by simpa using hflt), List.mem_of_mem_filter hmem⟩)
  · intro t ht hmag hty
    have h35 := h4 t ht hty
    rw [h35] at hmag
    norm_num at hmag

/-- Witness for C10: the auto-snap decision and a keyboard/click navigation
request, applied to the agent section at position 60 (a real member of the
generated map with magnetism 100). -/
theorem snap_targets_never_micro_witness :
    (55 ≤ (⟨60, SectionType.agent, 100, 2.0⟩ : ScrollSection).magnetism ∧
      (⟨60, SectionType.agent, 100, 2.0⟩ : ScrollSection) ∈
        [(⟨60, SectionType.agent, 100, 2.0⟩ : ScrollSection)]) ∧
    (((⟨60, SectionType.agent, 100, 2.0⟩ : ScrollSection).type = SectionType.agent ∨
      55 ≤ (⟨60, SectionType.agent, 100, 2.0⟩ : ScrollSection).magnetism) ∧
      (⟨60, SectionType.agent, 100, 2.0⟩ : ScrollSection) ∈
        [(⟨60, SectionType.agent, 100, 2.0⟩ : ScrollSection)]) ∧
    (⟨60, SectionType.agent, 100, 2.0⟩ : ScrollSection).type ≠ SectionType.micro := by
  have hauto : checkForAutoSnap [(⟨60, SectionType.agent, 100, 2.0⟩ : ScrollSection)]
      { initialState with position := 59, velocity := 1 }
      = some ⟨60, SectionType.agent, 100, 2.0⟩ := by
    norm_num [checkForAutoSnap, findBestSnapTarget, initialState, mathSign, snapRadius]
  have hnav : findTargetSection [(⟨60, SectionType.agent, 100, 2.0⟩ : ScrollSection)] 10 1
      SnapType.agent = some ⟨60, SectionType.agent, 100, 2.0⟩ := by
    norm_num [findTargetSection, List.find?]
  have hmem : (⟨60, SectionType.agent, 100, 2.0⟩ : ScrollSection) ∈ generateSections := by
    rw [generateSections_eq]
    exact mem_sectionsRaw.mpr ⟨60, by norm_num, rfl⟩
  exact ⟨snap_targets_never_micro.1 _ _ _ hauto,
         snap_targets_never_micro.2.1 _ 10 1 SnapType.agent _ hnav,
         snap_targets_never_micro.2.2.1 _ hmem (by norm_num)⟩
